import Mathlib

/-!
Verification of the call-lifecycle state machine and negotiation coordinator
of the `sendrecv/gst-rust` WebRTC signalling client (`src/main.rs`).

The Rust program is shallowly embedded: every handler becomes a pure
function from the shared session data (`Config`) and its input to a
`StepResult` recording the sequence of assignments to the shared
`app_state` field, the text frames sent on the websocket, the number of
`close` calls, the commands issued to the GStreamer media engine, and
whether the handler returned normally or hit a `panic!`/`unwrap` fault.
External collaborators (the `ws` socket, GStreamer, `rand`, `serde_json`'s
text layer) are modelled at their interface boundary.
-/

namespace SendRecv

/-- The `AppState` enum of `src/main.rs` (lines 21–38). -/
inductive AppState
  | AppStateErr
  | ServerConnecting
  | ServerConnectionError
  | ServerConnected
  | ServerRegistering
  | ServerRegisteringError
  | ServerRegistered
  | ServerClosed
  | PeerConnecting
  | PeerConnectionError
  | PeerConnected
  | PeerCallNegotiating
  | PeerCallStarted
  | PeerCallError
  deriving DecidableEq, Repr, Fintype

/-- The explicit discriminants assigned in the Rust enum declaration:
`AppStateErr = 1`, `ServerConnecting = 1000`, `ServerRegistering = 2000`,
`PeerConnecting = 3000`, `PeerCallNegotiating = 4000`, with the variants in
between taking successor values.  Rust's derived `PartialOrd` on a
field-less enum compares these discriminants. -/
def discr : AppState → Nat
  | .AppStateErr => 1
  | .ServerConnecting => 1000
  | .ServerConnectionError => 1001
  | .ServerConnected => 1002
  | .ServerRegistering => 2000
  | .ServerRegisteringError => 2001
  | .ServerRegistered => 2002
  | .ServerClosed => 2003
  | .PeerConnecting => 3000
  | .PeerConnectionError => 3001
  | .PeerConnected => 3002
  | .PeerCallNegotiating => 4000
  | .PeerCallStarted => 4001
  | .PeerCallError => 4002

instance : LE AppState := ⟨fun a b => discr a ≤ discr b⟩

instance : LT AppState := ⟨fun a b => discr a < discr b⟩

instance (a b : AppState) : Decidable (a ≤ b) :=
  inferInstanceAs (Decidable (discr a ≤ discr b))

instance (a b : AppState) : Decidable (a < b) :=
  inferInstanceAs (Decidable (discr a < discr b))

/-- The `JsonMsg` enum (lines 398–411): the two negotiation payload shapes.
`sdp_mline_index` is a Rust `u32`, embedded as `Fin 4294967296`. -/
inductive JsonMsg
  | Ice (candidate : String) (sdp_mline_index : Fin 4294967296)
  | Sdp (type_ : String) (sdp : String)
  deriving DecidableEq, Repr

/-- JSON values, as produced by `serde_json`'s text parser.  Non-integral
numeric literals never deserialize into either `JsonMsg` shape, so they are
kept only as the payload-less marker `floatLit`. -/
inductive Json
  | null
  | boolean (b : Bool)
  | num (neg : Bool) (n : Nat)
  | floatLit
  | str (s : String)
  | arr (elems : List Json)
  | obj (kvs : List (String × Json))

/-- Serialization of `JsonMsg` as `serde` performs it for an externally
tagged enum with `rename_all = "lowercase"` and the `sdpMLineIndex` /
`type` field renames: lines 398–411 together with the `json!` literals at
lines 122–127 and 270–275. -/
def encodeJsonMsg : JsonMsg → Json
  | .Ice c i =>
      .obj [("ice", .obj [("candidate", .str c), ("sdpMLineIndex", .num false i.val)])]
  | .Sdp t s =>
      .obj [("sdp", .obj [("type", .str t), ("sdp", .str s)])]

/-- First value bound to key `k`, as `serde` map access. -/
def lookupKey (k : String) : List (String × Json) → Option Json
  | [] => none
  | (k', v) :: rest => if k' = k then some v else lookupKey k rest

/-- Number of occurrences of key `k`; `serde` rejects a struct field that is
set twice. -/
def countKey (k : String) (kvs : List (String × Json)) : Nat :=
  (kvs.filter (fun kv => kv.fst == k)).length

def getStr : Json → Option String
  | .str s => some s
  | _ => none

def getU32 : Json → Option (Fin 4294967296)
  | .num false n => if h : n < 4294967296 then some ⟨n, h⟩ else none
  | _ => none

/-- Deserialization of the `Ice` struct-variant payload: a map with both
fields present exactly once (unknown fields ignored, `serde`'s default), or
a sequence of the two fields in declaration order. -/
def decodeIce : Json → Option JsonMsg
  | .obj kvs =>
      if countKey "candidate" kvs = 1 ∧ countKey "sdpMLineIndex" kvs = 1 then
        match lookupKey "candidate" kvs, lookupKey "sdpMLineIndex" kvs with
        | some cv, some mv =>
            match getStr cv, getU32 mv with
            | some c, some m => some (.Ice c m)
            | _, _ => none
        | _, _ => none
      else none
  | .arr [cv, mv] =>
      match getStr cv, getU32 mv with
      | some c, some m => some (.Ice c m)
      | _, _ => none
  | _ => none

/-- Deserialization of the `Sdp` struct-variant payload. -/
def decodeSdp : Json → Option JsonMsg
  | .obj kvs =>
      if countKey "type" kvs = 1 ∧ countKey "sdp" kvs = 1 then
        match lookupKey "type" kvs, lookupKey "sdp" kvs with
        | some tv, some sv =>
            match getStr tv, getStr sv with
            | some t, some s => some (.Sdp t s)
            | _, _ => none
        | _, _ => none
      else none
  | .arr [tv, sv] =>
      match getStr tv, getStr sv with
      | some t, some s => some (.Sdp t s)
      | _, _ => none
  | _ => none

/-- Deserialization of `JsonMsg` from a JSON value: an externally tagged
enum requires a map with exactly one entry whose key names the variant. -/
def decodeJsonMsg : Json → Option JsonMsg
  | .obj [(tag, payload)] =>
      if tag = "ice" then decodeIce payload
      else if tag = "sdp" then decodeSdp payload
      else none
  | _ => none

/-- JSON whitespace (space, tab, line feed, carriage return), as accepted
between tokens by `serde_json`. -/
def isJsonWs (c : Char) : Bool :=
  c.toNat == 32 || c.toNat == 9 || c.toNat == 10 || c.toNat == 13

def dropWs : List Char → List Char
  | [] => []
  | c :: cs => if isJsonWs c then dropWs cs else c :: cs

/-- Value of a hexadecimal digit (code points 48–57, 97–102, 65–70). -/
def hexDigitVal (c : Char) : Option Nat :=
  let n := c.toNat
  if 48 ≤ n ∧ n ≤ 57 then some (n - 48)
  else if 97 ≤ n ∧ n ≤ 102 then some (n - 87)
  else if 65 ≤ n ∧ n ≤ 70 then some (n - 55)
  else none

/-- The two-character escape sequences of JSON strings. -/
def unescapeChar (c : Char) : Option Char :=
  if c = '"' then some '"'
  else if c = '\\' then some '\\'
  else if c = '/' then some '/'
  else if c = 'n' then some '\n'
  else if c = 't' then some '\t'
  else if c = 'r' then some '\r'
  else if c = 'b' then some (Char.ofNat 8)
  else if c = 'f' then some (Char.ofNat 12)
  else none

/-- String-body scanner: input is the characters after the opening quote;
returns the decoded string and the characters after the closing quote.
Unescaped control characters are invalid; `\uXXXX` escapes outside the
surrogate range are decoded (surrogate pairs, which never occur in the
payloads exchanged here, are rejected). -/
def scanStringBody : Nat → List Char → List Char → Option (String × List Char)
  | 0, _, _ => none
  | _ + 1, _, [] => none
  | fuel + 1, acc, c :: cs =>
    if c = '"' then some (String.mk acc.reverse, cs)
    else if c = '\\' then
      match cs with
      | [] => none
      | e :: cs2 =>
        if e = 'u' then
          match cs2 with
          | h1 :: h2 :: h3 :: h4 :: cs3 =>
              match hexDigitVal h1, hexDigitVal h2, hexDigitVal h3, hexDigitVal h4 with
              | some a, some b, some c2, some d =>
                  let n := ((a * 16 + b) * 16 + c2) * 16 + d
                  if 0xD800 ≤ n ∧ n < 0xE000 then none
                  else scanStringBody fuel (Char.ofNat n :: acc) cs3
              | _, _, _, _ => none
          | _ => none
        else
          match unescapeChar e with
          | some u => scanStringBody fuel (u :: acc) cs2
          | none => none
    else if c.toNat < 32 then none
    else scanStringBody fuel (c :: acc) cs

/-- Consume a run of decimal digits, accumulating their value. -/
def digitsToNat (acc : Nat) : List Char → Nat × List Char
  | [] => (acc, [])
  | c :: cs =>
      if c.isDigit then digitsToNat (acc * 10 + (c.toNat - '0'.toNat)) cs
      else (acc, c :: cs)

/-- After a `.`: at least one digit. -/
def parseFrac : List Char → Option (List Char)
  | c :: cs => if c.isDigit then some (digitsToNat 0 (c :: cs)).2 else none
  | [] => none

/-- An exponent part: `e`/`E`, optional sign, at least one digit. -/
def parseExp : List Char → Option (List Char)
  | c :: cs =>
      if c = '+' ∨ c = '-' then
        match cs with
        | d :: ds => if d.isDigit then some (digitsToNat 0 (d :: ds)).2 else none
        | [] => none
      else if c.isDigit then some (digitsToNat 0 (c :: cs)).2
      else none
  | [] => none

/-- A JSON number after the optional minus sign.  Integer literals (no
fraction, no exponent, no leading zero) become `Json.num`; other numeric
literals become the `floatLit` marker. -/
def parseNumber (neg : Bool) : List Char → Option (Json × List Char)
  | c :: cs =>
      if c.isDigit then
        if c == '0' && (match cs with | d :: _ => d.isDigit | [] => false) then none
        else
          let (n, rest) := digitsToNat (c.toNat - '0'.toNat) cs
          match rest with
          | '.' :: rest2 =>
              match parseFrac rest2 with
              | some rest3 =>
                  match rest3 with
                  | e :: rest4 =>
                      if e = 'e' ∨ e = 'E' then
                        match parseExp rest4 with
                        | some rest5 => some (.floatLit, rest5)
                        | none => none
                      else some (.floatLit, e :: rest4)
                  | [] => some (.floatLit, [])
              | none => none
          | e :: rest2 =>
              if e = 'e' ∨ e = 'E' then
                match parseExp rest2 with
                | some rest3 => some (.floatLit, rest3)
                | none => none
              else some (.num neg n, e :: rest2)
          | [] => some (.num neg n, [])
      else none
  | [] => none

mutual

/-- Recursive-descent JSON value scanner modelling `serde_json`'s text
layer; the fuel argument strictly exceeds the input length on the initial
call, which suffices because every recursive call consumes input. -/
def parseValue : Nat → List Char → Option (Json × List Char)
  | 0, _ => none
  | _ + 1, [] => none
  | fuel + 1, c :: cs =>
    if c = '{' then
      match dropWs cs with
      | '}' :: rest => some (.obj [], rest)
      | cs2 => parseFields fuel cs2 []
    else if c = '[' then
      match dropWs cs with
      | ']' :: rest => some (.arr [], rest)
      | cs2 => parseItems fuel cs2 []
    else if c = '"' then
      match scanStringBody (cs.length + 1) [] cs with
      | some (s, rest) => some (.str s, rest)
      | none => none
    else if c = 't' then
      match cs with
      | 'r' :: 'u' :: 'e' :: rest => some (.boolean true, rest)
      | _ => none
    else if c = 'f' then
      match cs with
      | 'a' :: 'l' :: 's' :: 'e' :: rest => some (.boolean false, rest)
      | _ => none
    else if c = 'n' then
      match cs with
      | 'u' :: 'l' :: 'l' :: rest => some (.null, rest)
      | _ => none
    else if c = '-' then parseNumber true cs
    else if c.isDigit then parseNumber false (c :: cs)
    else none

/-- Members of a non-empty JSON object, positioned at a key. -/
def parseFields : Nat → List Char → List (String × Json) → Option (Json × List Char)
  | 0, _, _ => none
  | fuel + 1, input, acc =>
    match input with
    | '"' :: cs =>
      match scanStringBody (cs.length + 1) [] cs with
      | some (k, rest) =>
        match dropWs rest with
        | ':' :: rest2 =>
          match parseValue fuel (dropWs rest2) with
          | some (v, rest3) =>
            match dropWs rest3 with
            | ',' :: rest4 => parseFields fuel (dropWs rest4) (acc ++ [(k, v)])
            | '}' :: rest4 => some (.obj (acc ++ [(k, v)]), rest4)
            | _ => none
          | none => none
        | _ => none
      | none => none
    | _ => none

/-- Elements of a non-empty JSON array, positioned at a value. -/
def parseItems : Nat → List Char → List Json → Option (Json × List Char)
  | 0, _, _ => none
  | fuel + 1, input, acc =>
    match parseValue fuel input with
    | some (v, rest) =>
      match dropWs rest with
      | ',' :: rest2 => parseItems fuel (dropWs rest2) (acc ++ [v])
      | ']' :: rest2 => some (.arr (acc ++ [v]), rest2)
      | _ => none
    | none => none

end

/-- A complete JSON document: one value, surrounded only by whitespace. -/
def parseJsonText (s : String) : Option Json :=
  match parseValue (s.data.length + 1) (dropWs s.data) with
  | some (j, rest) =>
      match dropWs rest with
      | [] => some j
      | _ => none
  | none => none

/-- `serde_json::from_str::<JsonMsg>` (line 473): parse the text, then
deserialize the tagged union. -/
def from_str (s : String) : Option JsonMsg :=
  (parseJsonText s).bind decodeJsonMsg

/-- `msg_text.starts_with("ERROR")` (line 445), over the character list. -/
def startsWithERROR (s : String) : Bool :=
  s.data.take 5 == ['E', 'R', 'R', 'O', 'R']

/-- The shared session data visible to the websocket handler: the
`AppControl` fields `app_state` and `peer_id` (lines 386–390) together with
the `WsClient.webrtc` engine handle (lines 381–384), which is `None` until
`start_pipeline` succeeds.  The handle itself is opaque, so it is embedded
as `Option Unit`. -/
structure Config where
  app_state : AppState
  peer_id : String
  webrtc : Option Unit
  deriving DecidableEq, Repr

/-- A frame given to `ws_sender.send`: either literal text or the
`serde_json` rendering of a `JsonMsg` (the text layer of the rendering is
the external library's concern). -/
inductive WireOut
  | text (s : String)
  | json (m : JsonMsg)
  deriving DecidableEq, Repr

/-- Commands emitted to the GStreamer media engine, at the interface
boundary. -/
inductive EngineCmd
  | createOffer
  | setLocalDescription (sdp : String)
  | setRemoteDescription (sdp : String)
  | addIceCandidate (mline : Fin 4294967296) (candidate : String)
  | startPipeline
  deriving DecidableEq, Repr

/-- The distinct `panic!`/failed-`unwrap`/failed-`assert` sites reachable in
the embedded handlers. -/
inductive PanicReason
  | helloWhenNotRegistering
  | sessionOkWhenNotCalling
  | wsError (e : AppState)
  | jsonFromStrFailed
  | answerStateAssert (s : AppState)
  | answerTypeAssert (t : String)
  | engineHandleMissing
  | cantSendOffer
  | cantSendIce
  deriving DecidableEq, Repr

/-- Whether a handler returned normally or terminated the process. -/
inductive Outcome
  | ok
  | panicked (r : PanicReason)
  deriving DecidableEq, Repr

/-- Observable effect of one handler invocation: the value of the stored
`app_state` field when the handler returns (or when the panic fires), the
ordered list of assignments made to that field, the frames sent, the number
of `close` calls, the engine commands issued, the engine handle afterwards,
and the outcome. -/
structure StepResult where
  state : AppState
  writes : List AppState
  sent : List WireOut
  closes : Nat
  engine : List EngineCmd
  webrtc : Option Unit
  outcome : Outcome
  deriving DecidableEq, Repr

/-- The error-state mapping computed on receipt of an `ERROR`-prefixed
message: the `match` at lines 447–462. -/
def errorMap : AppState → AppState
  | .ServerConnecting => .ServerConnectionError
  | .ServerRegistering => .ServerRegisteringError
  | .PeerConnecting => .PeerConnectionError
  | .PeerConnected => .PeerCallError
  | .PeerCallNegotiating => .PeerCallError
  | .ServerConnectionError => .ServerConnectionError
  | .ServerRegisteringError => .ServerRegisteringError
  | .PeerConnectionError => .PeerConnectionError
  | .PeerCallError => .PeerCallError
  | .AppStateErr => .AppStateErr
  | .ServerConnected => .AppStateErr
  | .ServerRegistered => .AppStateErr
  | .ServerClosed => .AppStateErr
  | .PeerCallStarted => .AppStateErr

/-- `setup_call` (lines 87–99): store `PeerConnecting`, send
`SESSION <peer_id>`, return the new state (the return value is discarded by
the caller). -/
def setup_call (c : Config) : StepResult :=
  ⟨.PeerConnecting, [.PeerConnecting], [.text ("SESSION " ++ c.peer_id)], 0, [], c.webrtc, .ok⟩

/-- `rand::thread_rng().gen_range(lo, hi)` (line 104), the external RNG at
its interface boundary: a uniformly distributed draw `seed` is reduced to
the half-open range `[lo, hi)`. -/
def gen_range (lo hi seed : Nat) : Nat :=
  lo + seed % (hi - lo)

/-- `register_with_server` (lines 101–111): store `ServerRegistering`, send
`HELLO <our_id>` with `our_id = gen_range 10 10000 seed`, and return the
new state. -/
def register_with_server (c : Config) (id : Nat) : StepResult :=
  ⟨.ServerRegistering, [.ServerRegistering], [.text ("HELLO " ++ toString id)], 0, [], c.webrtc, .ok⟩

/-- `WsClient::on_open` (lines 414–418): `update_state(ServerConnected)`,
then `update_state(register_with_server(..))`, whose return value is the
state it already stored. -/
def on_open (c : Config) (id : Nat) : StepResult :=
  let r := register_with_server c id
  ⟨r.state, .ServerConnected :: (r.writes ++ [r.state]), r.sent, r.closes, r.engine, r.webrtc, r.outcome⟩

/-- Result of one of the two outbound-send helpers: the frames sent and the
outcome. -/
structure SendResult where
  sent : List WireOut
  outcome : Outcome
  deriving DecidableEq, Repr

/-- `send_sdp_offer` (lines 113–129): panic unless
`app_state >= PeerCallNegotiating`, else send the offer as
`{"sdp":{"type":"offer","sdp":...}}`. -/
def send_sdp_offer (s : AppState) (offerSdp : String) : SendResult :=
  if s < .PeerCallNegotiating then ⟨[], .panicked .cantSendOffer⟩
  else ⟨[.json (.Sdp "offer" offerSdp)], .ok⟩

/-- `send_ice_candidate_message` (lines 258–278): panic unless
`app_state >= PeerCallNegotiating`, else send the candidate as
`{"ice":{"candidate":...,"sdpMLineIndex":...}}`. -/
def send_ice_candidate_message (s : AppState) (mline : Fin 4294967296) (cand : String) : SendResult :=
  if s < .PeerCallNegotiating then ⟨[], .panicked .cantSendIce⟩
  else ⟨[.json (.Ice cand mline)], .ok⟩

/-- `on_negotiation_needed` (lines 154–169): unconditionally store
`PeerCallNegotiating` and emit one `create-offer` request on the media
engine.  The stored state is read nowhere in the handler. -/
def on_negotiation_needed (c : Config) : StepResult :=
  ⟨.PeerCallNegotiating, [.PeerCallNegotiating], [], 0, [.createOffer], c.webrtc, .ok⟩

/-- The `match json_msg` block of `WsClient::on_message` (lines 474–507):
an `Sdp` payload asserts the `PeerCallNegotiating` state, asserts
`type == "answer"`, unwraps the engine handle, applies the remote
description and stores `PeerCallStarted`; an `Ice` payload unwraps the
engine handle and forwards the candidate with no state change. -/
def handle_json (c : Config) : JsonMsg → StepResult
  | .Sdp ty sdp =>
      if c.app_state ≠ .PeerCallNegotiating then
        ⟨c.app_state, [], [], 0, [], c.webrtc, .panicked (.answerStateAssert c.app_state)⟩
      else if ty ≠ "answer" then
        ⟨c.app_state, [], [], 0, [], c.webrtc, .panicked (.answerTypeAssert ty)⟩
      else
        match c.webrtc with
        | none => ⟨c.app_state, [], [], 0, [], c.webrtc, .panicked .engineHandleMissing⟩
        | some _ =>
            ⟨.PeerCallStarted, [.PeerCallStarted], [], 0, [.setRemoteDescription sdp], c.webrtc, .ok⟩
  | .Ice cand idx =>
      match c.webrtc with
      | none => ⟨c.app_state, [], [], 0, [], c.webrtc, .panicked .engineHandleMissing⟩
      | some _ =>
          ⟨c.app_state, [], [], 0, [.addIceCandidate idx cand], c.webrtc, .ok⟩

/-- `WsClient::on_message` (lines 420–510): dispatch on the literal content
first (`HELLO`, `SESSION_OK`, `ERROR` prefix), then deserialize a
`JsonMsg` and dispatch on its variant. -/
def on_message (c : Config) (txt : String) : StepResult :=
  if txt = "HELLO" then
    if c.app_state ≠ .ServerRegistering then
      ⟨c.app_state, [], [], 0, [], c.webrtc, .panicked .helloWhenNotRegistering⟩
    else
      let r := setup_call c
      ⟨r.state, .ServerRegistered :: r.writes, r.sent, r.closes, r.engine, r.webrtc, r.outcome⟩
  else if txt = "SESSION_OK" then
    if c.app_state ≠ .PeerConnecting then
      ⟨c.app_state, [], [], 0, [], c.webrtc, .panicked .sessionOkWhenNotCalling⟩
    else
      ⟨.PeerConnected, [.PeerConnected], [], 0, [.startPipeline], some (), .ok⟩
  else if startsWithERROR txt then
    ⟨c.app_state, [], [], 1, [], c.webrtc, .panicked (.wsError (errorMap c.app_state))⟩
  else
    match from_str txt with
    | none => ⟨c.app_state, [], [], 0, [], c.webrtc, .panicked .jsonFromStrFailed⟩
    | some m => handle_json c m

/-- `WsClient::on_close` (lines 512–514): store `ServerClosed`. -/
def on_close (c : Config) : StepResult :=
  ⟨.ServerClosed, [.ServerClosed], [], 0, [], c.webrtc, .ok⟩

/-- No JSON value begins with the character `E`, whatever the fuel. -/
theorem parseValue_E_none (n : Nat) (cs : List Char) : parseValue n ('E' :: cs) = none := by
  cases n <;> rfl

/-- A text with the `ERROR` prefix never deserializes to a `JsonMsg`. -/
theorem from_str_of_startsWithERROR (s : String) (h : startsWithERROR s = true) :
    from_str s = none := by
  have h' : s.data.take 5 = ['E', 'R', 'R', 'O', 'R'] := by
    have := h
    unfold startsWithERROR at this
    exact beq_iff_eq.mp this
  obtain ⟨as, hd⟩ : ∃ as, s.data = 'E' :: as := by
    cases hl : s.data with
    | nil => rw [hl] at h'; simp at h'
    | cons a l =>
        rw [hl] at h'
        simp [List.take] at h'
        exact ⟨l, by rw [h'.1]⟩
  unfold from_str parseJsonText
  rw [hd]
  have hsk : dropWs ('E' :: as) = 'E' :: as := by
    unfold dropWs
    rw [if_neg (by decide)]
  rw [hsk, parseValue_E_none]
  rfl

/-- A successfully deserialized message is none of the three literal
dispatch cases of `on_message`. -/
theorem from_str_some_not_literal (txt : String) (m : JsonMsg) (h : from_str txt = some m) :
    txt ≠ "HELLO" ∧ txt ≠ "SESSION_OK" ∧ startsWithERROR txt = false := by
  refine ⟨?_, ?_, ?_⟩
  · intro he
    rw [he] at h
    rw [show from_str "HELLO" = none from by decide] at h
    exact Option.noConfusion h
  · intro he
    rw [he] at h
    rw [show from_str "SESSION_OK" = none from by decide] at h
    exact Option.noConfusion h
  · cases hE : startsWithERROR txt with
    | false => rfl
    | true =>
        rw [from_str_of_startsWithERROR txt hE] at h
        exact Option.noConfusion h

/-- When the inbound text deserializes, `on_message` reduces to the
`JsonMsg` dispatch. -/
theorem on_message_of_from_str (c : Config) (txt : String) (m : JsonMsg)
    (h : from_str txt = some m) : on_message c txt = handle_json c m := by
  obtain ⟨h1, h2, h3⟩ := from_str_some_not_literal txt m h
  unfold on_message
  rw [if_neg h1, if_neg h2, if_neg (by simp [h3]), h]

/-- C6: the comparison on `AppState` (Rust's derived `PartialOrd`, i.e.
discriminant comparison) is a total order agreeing with the declared
chain; `PeerCallNegotiating ≤ s` holds exactly for `PeerCallNegotiating`,
`PeerCallStarted` and `PeerCallError`, and `ServerClosed < PeerConnecting`. -/
theorem appState_order_total_and_thresholds :
    (∀ a b : AppState, a ≤ b ∨ b ≤ a) ∧
    (∀ a b : AppState, a ≤ b → b ≤ a → a = b) ∧
    (∀ a b c : AppState, a ≤ b → b ≤ c → a ≤ c) ∧
    (AppState.ServerConnecting < .ServerConnectionError ∧
     AppState.ServerConnectionError < .ServerConnected ∧
     AppState.ServerConnected < .ServerRegistering ∧
     AppState.ServerRegistering < .ServerRegisteringError ∧
     AppState.ServerRegisteringError < .ServerRegistered ∧
     AppState.ServerRegistered < .ServerClosed ∧
     AppState.ServerClosed < .PeerConnecting ∧
     AppState.PeerConnecting < .PeerConnectionError ∧
     AppState.PeerConnectionError < .PeerConnected ∧
     AppState.PeerConnected < .PeerCallNegotiating ∧
     AppState.PeerCallNegotiating < .PeerCallStarted ∧
     AppState.PeerCallStarted < .PeerCallError) ∧
    (∀ s : AppState, .PeerCallNegotiating ≤ s ↔
       (s = .PeerCallNegotiating ∨ s = .PeerCallStarted ∨ s = .PeerCallError)) ∧
    AppState.ServerClosed < .PeerConnecting := by
  decide

/-- C6 witness: transitivity applied at a concrete chain. -/
theorem appState_order_witness : AppState.PeerCallNegotiating ≤ .PeerCallError :=
  appState_order_total_and_thresholds.2.2.1 .PeerCallNegotiating .PeerCallStarted .PeerCallError
    (by decide) (by decide)

/-- C1 counterexample: in state `ServerConnecting` (which is not
`PeerConnected`) the negotiation-needed handler does not fault — it
returns normally and still stores `PeerCallNegotiating`. -/
theorem onNegotiationNeeded_no_fault_when_not_peerConnected :
    (on_negotiation_needed ⟨.ServerConnecting, "1", none⟩).outcome = .ok ∧
    AppState.ServerConnecting ≠ .PeerConnected ∧
    (on_negotiation_needed ⟨.ServerConnecting, "1", none⟩).state = .PeerCallNegotiating := by
  decide

/-- C1 (amended): on every negotiation-needed event, whatever the current
state (no guard is checked), the coordinator stores `PeerCallNegotiating`
and issues exactly one offer-creation request. -/
theorem onNegotiationNeeded_unconditional (c : Config) :
    on_negotiation_needed c =
      ⟨.PeerCallNegotiating, [.PeerCallNegotiating], [], 0, [.createOffer], c.webrtc, .ok⟩ :=
  rfl

/-- C2 counterexample: for an `ERROR`-prefixed message in state
`PeerConnecting`, the stored state is never assigned (no transition to
`PeerConnectionError` happens); the handler closes the channel once and
dies carrying the computed `PeerConnectionError` value. -/
theorem onMessage_error_state_never_written :
    (on_message ⟨.PeerConnecting, "7", none⟩ "ERROR session failed").writes = [] ∧
    (on_message ⟨.PeerConnecting, "7", none⟩ "ERROR session failed").state = .PeerConnecting ∧
    (on_message ⟨.PeerConnecting, "7", none⟩ "ERROR session failed").state ≠ .PeerConnectionError ∧
    (on_message ⟨.PeerConnecting, "7", none⟩ "ERROR session failed").closes = 1 ∧
    (on_message ⟨.PeerConnecting, "7", none⟩ "ERROR session failed").outcome =
      .panicked (.wsError .PeerConnectionError) := by
  decide

/-- C2 (amended): every `ERROR`-prefixed message received in
`PeerConnecting` computes the mapped error state `PeerConnectionError`,
closes the channel exactly once, and terminates fatally carrying that
error state; the stored state field itself is not updated before the
fatal termination. -/
theorem onMessage_error_in_peerConnecting (c : Config) (txt : String)
    (hs : c.app_state = .PeerConnecting) (he : startsWithERROR txt = true) :
    on_message c txt =
      ⟨.PeerConnecting, [], [], 1, [], c.webrtc, .panicked (.wsError .PeerConnectionError)⟩ := by
  have h1 : txt ≠ "HELLO" := by
    intro h; rw [h] at he; exact absurd he (by decide)
  have h2 : txt ≠ "SESSION_OK" := by
    intro h; rw [h] at he; exact absurd he (by decide)
  unfold on_message
  rw [if_neg h1, if_neg h2, if_pos he, hs]
  rfl

/-- C2 witness. -/
theorem onMessage_error_in_peerConnecting_witness :
    on_message ⟨.PeerConnecting, "8", some ()⟩ "ERROR peer gone" =
      ⟨.PeerConnecting, [], [], 1, [], some (), .panicked (.wsError .PeerConnectionError)⟩ :=
  onMessage_error_in_peerConnecting _ _ rfl (by decide)

/-- C5: decoding inverts encoding for every constructible
`NegotiationMessage`, and the encoding is a JSON object with exactly one
of the keys `ice` (fields `candidate`, `sdpMLineIndex`) or `sdp` (fields
`type`, `sdp`).  The string fields are arbitrary, so SDP bodies with
embedded newlines and candidate strings with `:` and `/` are covered. -/
theorem jsonMsg_roundtrip (m : JsonMsg) :
    decodeJsonMsg (encodeJsonMsg m) = some m ∧
    encodeJsonMsg m = (match m with
      | .Ice c i =>
          .obj [("ice", .obj [("candidate", .str c), ("sdpMLineIndex", .num false i.val)])]
      | .Sdp t s =>
          .obj [("sdp", .obj [("type", .str t), ("sdp", .str s)])]) := by
  cases m with
  | Ice c i =>
      refine ⟨?_, rfl⟩
      simp [encodeJsonMsg, decodeJsonMsg, decodeIce, countKey, lookupKey, getStr, getU32, i.isLt]
  | Sdp t s =>
      refine ⟨?_, rfl⟩
      simp [encodeJsonMsg, decodeJsonMsg, decodeSdp, countKey, lookupKey, getStr]

/-- C7: on channel open the coordinator first stores `ServerConnected`,
then sends `HELLO <id>` with the freshly drawn id lying in `[10, 10000)`,
and is left in `ServerRegistering`.  The external RNG draw is the `seed`
argument of `gen_range`. -/
theorem onOpen_registers (c : Config) (seed : Nat) :
    10 ≤ gen_range 10 10000 seed ∧ gen_range 10 10000 seed < 10000 ∧
    on_open c (gen_range 10 10000 seed) =
      ⟨.ServerRegistering, [.ServerConnected, .ServerRegistering, .ServerRegistering],
       [.text ("HELLO " ++ toString (gen_range 10 10000 seed))], 0, [], c.webrtc, .ok⟩ := by
  refine ⟨Nat.le_add_right 10 _, ?_, rfl⟩
  have h : seed % 9990 < 9990 := Nat.mod_lt _ (by norm_num)
  unfold gen_range
  omega

/-- C8: on the literal `HELLO`, the handler faults when the state is not
`ServerRegistering`; otherwise it stores `ServerRegistered`, then sends
`SESSION <peer_id>` and is left in `PeerConnecting`. -/
theorem onMessage_hello (c : Config) :
    (c.app_state ≠ .ServerRegistering →
       on_message c "HELLO" =
         ⟨c.app_state, [], [], 0, [], c.webrtc, .panicked .helloWhenNotRegistering⟩) ∧
    (c.app_state = .ServerRegistering →
       on_message c "HELLO" =
         ⟨.PeerConnecting, [.ServerRegistered, .PeerConnecting],
          [.text ("SESSION " ++ c.peer_id)], 0, [], c.webrtc, .ok⟩) := by
  constructor
  · intro h
    unfold on_message
    rw [if_pos rfl, if_pos h]
  · intro h
    unfold on_message
    rw [if_pos rfl, if_neg (not_not_intro h)]
    simp [setup_call, h]

/-- C8 witness. -/
theorem onMessage_hello_witness :
    on_message ⟨.ServerRegistering, "4242", none⟩ "HELLO" =
      ⟨.PeerConnecting, [.ServerRegistered, .PeerConnecting],
       [.text ("SESSION " ++ "4242")], 0, [], none, .ok⟩ :=
  (onMessage_hello _).2 rfl

/-- C4: sending an offer or a candidate succeeds iff
`state ≥ PeerCallNegotiating`; when the guard fails the helper faults and
nothing is sent. -/
theorem send_guard_iff (s : AppState) (o : String) (m : Fin 4294967296) (cand : String) :
    ((send_sdp_offer s o).outcome = .ok ↔ .PeerCallNegotiating ≤ s) ∧
    ((send_ice_candidate_message s m cand).outcome = .ok ↔ .PeerCallNegotiating ≤ s) ∧
    (¬ .PeerCallNegotiating ≤ s →
       send_sdp_offer s o = ⟨[], .panicked .cantSendOffer⟩ ∧
       send_ice_candidate_message s m cand = ⟨[], .panicked .cantSendIce⟩) ∧
    (.PeerCallNegotiating ≤ s →
       send_sdp_offer s o = ⟨[.json (.Sdp "offer" o)], .ok⟩ ∧
       send_ice_candidate_message s m cand = ⟨[.json (.Ice cand m)], .ok⟩) := by
  by_cases h : s < .PeerCallNegotiating
  · have h' : ¬ (AppState.PeerCallNegotiating ≤ s) :=
      fun hle => Nat.lt_irrefl _ (Nat.lt_of_lt_of_le h hle)
    unfold send_sdp_offer send_ice_candidate_message
    rw [if_pos h, if_pos h]
    exact ⟨by simp [h'], by simp [h'], fun _ => ⟨rfl, rfl⟩, fun hle => absurd hle h'⟩
  · have h' : AppState.PeerCallNegotiating ≤ s := Nat.le_of_not_lt h
    unfold send_sdp_offer send_ice_candidate_message
    rw [if_neg h, if_neg h]
    exact ⟨by simp [h'], by simp [h'], fun hn => absurd h' hn, fun _ => ⟨rfl, rfl⟩⟩

/-- C4 witness. -/
theorem send_guard_iff_witness :
    send_sdp_offer .PeerCallStarted "v=0" = ⟨[.json (.Sdp "offer" "v=0")], .ok⟩ ∧
    send_ice_candidate_message .ServerConnecting 0 "cand" = ⟨[], .panicked .cantSendIce⟩ :=
  ⟨((send_guard_iff .PeerCallStarted "v=0" 0 "cand").2.2.2 (by decide)).1,
   ((send_guard_iff .ServerConnecting "x" 0 "cand").2.2.1 (by decide)).2⟩

/-- C3: with the engine handle installed, an inbound `SessionDescription`
message is accepted iff the state is `PeerCallNegotiating` and its type
field is `"answer"`; on acceptance the SDP is handed to the media engine
as the remote description and the state becomes `PeerCallStarted`; in
every other case the handler faults. -/
theorem onMessage_answer_guard (c : Config) (txt ty sdp : String)
    (hw : c.webrtc = some ()) (hp : from_str txt = some (.Sdp ty sdp)) :
    ((on_message c txt).outcome = .ok ↔
       (c.app_state = .PeerCallNegotiating ∧ ty = "answer")) ∧
    (c.app_state = .PeerCallNegotiating → ty = "answer" →
       on_message c txt =
         ⟨.PeerCallStarted, [.PeerCallStarted], [], 0,
          [.setRemoteDescription sdp], c.webrtc, .ok⟩) := by
  rw [on_message_of_from_str c txt _ hp]
  simp only [handle_json]
  by_cases hs : c.app_state = .PeerCallNegotiating
  · by_cases ht : ty = "answer"
    · rw [if_neg (not_not_intro hs), if_neg (not_not_intro ht), hw]
      exact ⟨by simp [hs, ht], fun _ _ => rfl⟩
    · rw [if_neg (not_not_intro hs), if_pos ht]
      exact ⟨by simp [ht], fun _ h => absurd h ht⟩
  · rw [if_pos hs]
    exact ⟨by simp [hs], fun h => absurd h hs⟩

/-- C3 witness. -/
theorem onMessage_answer_guard_witness :
    on_message ⟨.PeerCallNegotiating, "9", some ()⟩
        "\x7b\"sdp\":\x7b\"type\":\"answer\",\"sdp\":\"v=0\"\x7d\x7d" =
      ⟨.PeerCallStarted, [.PeerCallStarted], [], 0,
       [.setRemoteDescription "v=0"], some (), .ok⟩ :=
  (onMessage_answer_guard _ _ "answer" "v=0" rfl (by decide)).2 rfl rfl

/-- C9: an inbound text that is none of the recognized literals and does
not deserialize to either `JsonMsg` shape makes the handler fault, with
no state change, nothing sent and nothing forwarded. -/
theorem onMessage_unrecognized_faults (c : Config) (txt : String)
    (h1 : txt ≠ "HELLO") (h2 : txt ≠ "SESSION_OK") (h3 : startsWithERROR txt = false)
    (h4 : from_str txt = none) :
    on_message c txt = ⟨c.app_state, [], [], 0, [], c.webrtc, .panicked .jsonFromStrFailed⟩ := by
  unfold on_message
  rw [if_neg h1, if_neg h2, if_neg (by simp [h3]), h4]

/-- C9 witness. -/
theorem onMessage_unrecognized_faults_witness :
    on_message ⟨.PeerCallNegotiating, "9", some ()⟩ "OFFER?" =
      ⟨.PeerCallNegotiating, [], [], 0, [], some (), .panicked .jsonFromStrFailed⟩ :=
  onMessage_unrecognized_faults _ _ (by decide) (by decide) (by decide) (by decide)

/-- C10: an inbound `Candidate` message arriving while the engine handle
is still absent (before `SESSION_OK` started the pipeline) makes the
handler fault on the `unwrap` of the handle instead of forwarding the
candidate. -/
theorem onMessage_ice_without_engine (c : Config) (txt cand : String) (idx : Fin 4294967296)
    (hw : c.webrtc = none) (hp : from_str txt = some (.Ice cand idx)) :
    on_message c txt = ⟨c.app_state, [], [], 0, [], c.webrtc, .panicked .engineHandleMissing⟩ := by
  rw [on_message_of_from_str c txt _ hp]
  unfold handle_json
  rw [hw]

/-- C10 witness. -/
theorem onMessage_ice_without_engine_witness :
    on_message ⟨.PeerConnecting, "9", none⟩
        "\x7b\"ice\":\x7b\"candidate\":\"a:1/b\",\"sdpMLineIndex\":0\x7d\x7d" =
      ⟨.PeerConnecting, [], [], 0, [], none, .panicked .engineHandleMissing⟩ :=
  onMessage_ice_without_engine _ _ "a:1/b" 0 rfl (by decide)

end SendRecv
